import Mathlib

/-!
Verification of the TeamSnap integration repository.

This file shallowly embeds the parts of the repository that the checked
properties speak about:

* the Collection+JSON item extractor `extract_item_data`
  (`teamsnap_mcp/client.py`);
* the read-only gate and the tool operations of the MCP server
  (`teamsnap_mcp/server.py`);
* the OAuth credential validity check and the authorization-code exchange
  (`teamsnap_auth.py`);
* the API-state snapshot builder and the snapshot differ (`monitor_api.py`).

Python dictionaries are modelled as association lists with in-place update
(`dictInsert`), machine time as `Int`, the ISO-timestamp parser and printer
as explicit function parameters, and the HTTP layer as an oracle from
requests to responses, so that "performs no network call" is the statement
that the recorded call trace is empty.
-/

namespace TeamSnap

/-! ### Python dictionaries as association lists

`dictInsert` mirrors `d[k] = v` on a Python `dict`: if the key is present its
value is updated in place, otherwise the pair is appended at the end.
`dictFind` mirrors `d.get(k)`. -/

def dictInsert (k : String) (v : α) : List (String × α) → List (String × α)
  | [] => [(k, v)]
  | (k', v') :: d => if k' = k then (k, v) :: d else (k', v') :: dictInsert k v d

def dictFind (k : String) : List (String × α) → Option α
  | [] => none
  | (k', v') :: d => if k' = k then some v' else dictFind k d

theorem dictFind_dictInsert_self (k : String) (v : α) (d : List (String × α)) :
    dictFind k (dictInsert k v d) = some v := by
  induction d with
  | nil => simp [dictInsert, dictFind]
  | cons p d ih =>
    obtain ⟨k', v'⟩ := p
    by_cases h : k' = k <;> simp [dictInsert, dictFind, h, ih]

theorem dictFind_dictInsert_ne (k k' : String) (h : k' ≠ k) (v : α)
    (d : List (String × α)) : dictFind k' (dictInsert k v d) = dictFind k' d := by
  induction d with
  | nil => simp [dictInsert, dictFind, Ne.symm h]
  | cons p d ih =>
    obtain ⟨k'', v''⟩ := p
    by_cases h2 : k'' = k
    · subst h2
      simp [dictInsert, dictFind, Ne.symm h]
    · by_cases h3 : k'' = k' <;> simp [dictInsert, dictFind, h, h2, h3, ih]

/-! ### The Collection+JSON item extractor

`teamsnap_mcp/client.py`, `TeamSnapAsyncClient.extract_item_data`: walk the
item's `data` array; for each field descriptor read `field.get("name")` and
`field.get("value")`, and bind `result[name] = value` when `name` is truthy
(present and not the empty string). -/

structure Field (α : Type) where
  name : Option String
  value : Option α

def extractStep (d : List (String × Option α)) (f : Field α) :
    List (String × Option α) :=
  match f.name with
  | some n => if n = "" then d else dictInsert n f.value d
  | none => d

def extract_item_data (fields : List (Field α)) : List (String × Option α) :=
  fields.foldl extractStep []

/-- Spec-side description of "the value of the last descriptor named `n`":
`none` when no descriptor carries `name = n`, otherwise the `value` slot of
the rightmost such descriptor. -/
def lastValueNamed (n : String) : List (Field α) → Option (Option α)
  | [] => none
  | f :: fs =>
    match lastValueNamed n fs with
    | some v => some v
    | none => if f.name = some n then some f.value else none

theorem dictFind_extractStep (n : String) (hn : n ≠ "") (d : List (String × Option α))
    (f : Field α) :
    dictFind n (extractStep d f) =
      if f.name = some n then some f.value else dictFind n d := by
  match h : f.name with
  | none => simp [extractStep, h]
  | some m =>
    by_cases hm : m = ""
    · subst hm
      simp [extractStep, h, Ne.symm hn]
    · by_cases hmn : m = n
      · subst hmn
        simp [extractStep, h, hm, dictFind_dictInsert_self]
      · simp [extractStep, h, hm, hmn,
          dictFind_dictInsert_ne m n (Ne.symm hmn) f.value d]

theorem dictFind_foldl_extractStep (n : String) (hn : n ≠ "") :
    ∀ (fields : List (Field α)) (d : List (String × Option α)),
      dictFind n (List.foldl extractStep d fields) =
        match lastValueNamed n fields with
        | some v => some v
        | none => dictFind n d := by
  intro fields
  induction fields with
  | nil => intro d; simp [lastValueNamed]
  | cons f fs ih =>
    intro d
    show dictFind n (List.foldl extractStep (extractStep d f) fs) = _
    rw [ih (extractStep d f), dictFind_extractStep n hn d f]
    by_cases hf : f.name = some n <;>
      cases hlast : lastValueNamed n fs <;>
      simp [lastValueNamed, hlast, hf]

theorem extract_item_data_find (n : String) (hn : n ≠ "") (fields : List (Field α)) :
    dictFind n (extract_item_data fields) = lastValueNamed n fields := by
  rw [extract_item_data, dictFind_foldl_extractStep n hn fields []]
  cases hlast : lastValueNamed n fields <;> simp [dictFind]

theorem dictFind_empty_foldl (fields : List (Field α)) :
    ∀ d, dictFind "" d = none →
      dictFind "" (List.foldl extractStep d fields) = none := by
  induction fields with
  | nil => intro d hd; simpa using hd
  | cons f fs ih =>
    intro d hd
    refine ih (extractStep d f) ?_
    match h : f.name with
    | none => simpa [extractStep, h] using hd
    | some m =>
      by_cases hm : m = ""
      · simpa [extractStep, h, hm] using hd
      · rw [show extractStep d f = dictInsert m f.value d by
            simp [extractStep, h, hm],
          dictFind_dictInsert_ne m "" (Ne.symm hm) f.value d]
        exact hd

theorem lastValueNamed_isSome (n : String) (fields : List (Field α)) :
    (lastValueNamed n fields).isSome = true ↔ ∃ f ∈ fields, f.name = some n := by
  induction fields with
  | nil => simp [lastValueNamed]
  | cons f fs ih =>
    cases hlast : lastValueNamed n fs with
    | some v =>
      have hx : lastValueNamed n (f :: fs) = some v := by
        simp [lastValueNamed, hlast]
      rw [hx]
      constructor
      · intro _
        obtain ⟨g, hg, hgn⟩ := ih.mp (by simp [hlast])
        exact ⟨g, List.mem_cons_of_mem f hg, hgn⟩
      · intro _; rfl
    | none =>
      by_cases hf : f.name = some n
      · have hx : lastValueNamed n (f :: fs) = some f.value := by
          simp [lastValueNamed, hlast, hf]
        rw [hx]
        constructor
        · intro _
          exact ⟨f, List.mem_cons_self f fs, hf⟩
        · intro _; rfl
      · have hx : lastValueNamed n (f :: fs) = none := by
          simp [lastValueNamed, hlast, hf]
        rw [hx]
        constructor
        · intro hcontra
          simp at hcontra
        · rintro ⟨g, hg, hgn⟩
          rcases List.mem_cons.mp hg with rfl | hg
          · exact absurd hgn hf
          · have h2 := ih.mpr ⟨g, hg, hgn⟩
            rw [hlast] at h2
            simp at h2

theorem lastValueNamed_eq_filter_getLast (n : String) (fields : List (Field α)) :
    lastValueNamed n fields =
      ((fields.filter fun f => f.name == some n).getLast?).map Field.value := by
  induction fields with
  | nil => simp [lastValueNamed]
  | cons f fs ih =>
    rw [List.filter_cons]
    by_cases hf : f.name = some n
    · rw [if_pos (by simp [hf])]
      cases hl : fs.filter (fun f => f.name == some n) with
      | nil =>
        have hnone : lastValueNamed n fs = none := by rw [ih, hl]; rfl
        simp [lastValueNamed, hnone, hf]
      | cons g gs =>
        have hsome : lastValueNamed n fs = ((g :: gs).getLast?).map Field.value := by
          rw [ih, hl]
        rw [List.getLast?_cons_cons]
        cases hg : (g :: gs).getLast? with
        | none => exact absurd (List.getLast?_eq_none_iff.mp hg) (by simp)
        | some x =>
          rw [hg] at hsome
          simp [lastValueNamed, hsome, hg]
    · rw [if_neg (by simp [hf]), ← ih]
      cases hlast : lastValueNamed n fs <;> simp [lastValueNamed, hlast, hf]

/-- C3 counterexample: the item
`[{name: "", value: 1}, {name: "", value: 2}]` has two descriptors with the
same name `""`, but `extract_item_data` produces the empty mapping — the name
is not bound to the last occurrence's value (the Python code's truthiness test
`if name:` drops empty-string names). -/
theorem extract_item_data_empty_name_duplicate_cex :
    extract_item_data [Field.mk (some "") (some 1), Field.mk (some "") (some 2)] =
      ([] : List (String × Option Nat)) ∧
    dictFind "" (extract_item_data
      [Field.mk (some "") (some 1), Field.mk (some "") (some 2)]) ≠
      some (some (2 : Nat)) := by
  exact ⟨rfl, by decide⟩

/-- C3 (amended): for every hypermedia item whose field list contains two or
more descriptors with the same *non-empty* name, the extractor's output binds
that name to the value of the last occurrence in list order
(last-write-wins). -/
theorem extract_item_data_last_write_wins (α : Type) (fields : List (Field α))
    (n : String) (hn : n ≠ "")
    (_hdup : 2 ≤ (fields.filter fun f => f.name == some n).length) :
    dictFind n (extract_item_data fields) =
      ((fields.filter fun f => f.name == some n).getLast?).map Field.value := by
  rw [extract_item_data_find n hn fields, lastValueNamed_eq_filter_getLast]

/-- Witness for `extract_item_data_last_write_wins`: a concrete item with two
descriptors named `"a"`; the output binds `"a"` to the later value `3`. -/
theorem extract_item_data_last_write_wins_witness :
    dictFind "a" (extract_item_data
      [Field.mk (some "a") (some 1), Field.mk (some "b") (some 2),
       Field.mk (some "a") (some 3)]) = some (some (3 : Nat)) := by
  have h := extract_item_data_last_write_wins Nat
    [Field.mk (some "a") (some 1), Field.mk (some "b") (some 2),
     Field.mk (some "a") (some 3)] "a" (by decide) (by decide)
  rw [h]
  rfl

/-- C4 counterexample: in the item `[{value: 5}, {name: "", value: 7}]` the
first descriptor lacks a name and is omitted, but the second descriptor *has*
a name (the empty string) and is omitted as well, so the "remaining named
fields" are not all mapped: the output is empty. -/
theorem extract_item_data_empty_name_cex :
    (Field.mk (some "") (some 7) : Field Nat).name ≠ none ∧
    extract_item_data [Field.mk none (some 5), Field.mk (some "") (some 7)] =
      ([] : List (String × Option Nat)) ∧
    dictFind "" (extract_item_data
      [Field.mk none (some 5), Field.mk (some "") (some (7 : Nat))]) = none := by
  exact ⟨by decide, rfl, rfl⟩

/-- C4 (amended): a descriptor lacking a name is omitted regardless of its
value, and so is a descriptor whose name is the empty string (the code tests
name truthiness); every descriptor with a non-empty name contributes, so the
output binds exactly the non-empty names occurring in the item, and malformed
input yields a smaller mapping rather than an error. -/
theorem extract_item_data_keys (α : Type) (fields : List (Field α)) (n : String) :
    (dictFind n (extract_item_data fields)).isSome = true ↔
      n ≠ "" ∧ ∃ f ∈ fields, f.name = some n := by
  by_cases hn : n = ""
  · subst hn
    have h0 : dictFind "" (extract_item_data fields) = none :=
      dictFind_empty_foldl fields [] rfl
    simp [h0]
  · rw [extract_item_data_find n hn fields, lastValueNamed_isSome]
    simp [hn]

/-! ### MCP server: read-only gate and tool operations (teamsnap_mcp/server.py)

The `TEAMSNAP_READONLY` environment variable is modelled as an
`Option String` (`none` when unset).  A tool response (`list[TextContent]`)
is modelled as a list of the text payloads, and the HTTP layer as an oracle
from API calls to `Except String Unit` (`Except.error e` standing for a
raised exception with message `e`).  Each tool records the client calls it
performs, so "performs no network call" is `calls = []`. -/

/-- Python's `str.lower()`, character by character.  All strings it is
applied to in this development are ASCII, where this agrees with Python. -/
def pyLower (s : String) : String := ⟨s.data.map Char.toLower⟩

inductive ApiCall where
  | get (endpoint : String)
  | post (endpoint : String) (data : List (String × String))
  | patch (endpoint : String) (data : List (String × String))
  | del (endpoint : String)
deriving DecidableEq

structure ToolResult where
  texts : List String
  calls : List ApiCall
deriving DecidableEq

/-- `server.py`, `is_readonly`: read `TEAMSNAP_READONLY` with default
`"true"`, lowercase it, and test membership in `('true', '1', 'yes', 'on')`. -/
def is_readonly (env : Option String) : Bool :=
  let readonly_env := pyLower (env.getD "true")
  decide (readonly_env ∈ ["true", "1", "yes", "on"])

/-- The fixed advisory text returned by `check_readonly` in `server.py`. -/
def readonlyAdvisory : String :=
  "❌ Write operation blocked: Server is in READ-ONLY mode\n\nTo enable write operations:\n1. Edit your .env file (or Claude Desktop config)\n2. Set: TEAMSNAP_READONLY=false\n3. Restart Claude Desktop\n\n⚠️  SECURITY: Only enable writes if you trust this integration and understand the risks of modifying your TeamSnap data."

/-- `server.py`, `check_readonly`: the advisory response when read-only mode
is on, `none` when writes are allowed. -/
def check_readonly (env : Option String) : Option (List String) :=
  if is_readonly env then some [readonlyAdvisory] else none

def valid_statuses : List String := ["yes", "no", "maybe", "unknown"]

/-- `server.py`, tool `update_availability`.  Unlike every other write tool in
the file, its body contains no `check_readonly` block, so the `TEAMSNAP_READONLY`
environment is never consulted (hence the unused `_env`).  It validates the
lowercased status against `valid_statuses`, then issues the client's
`PATCH /availabilities/{id}` with the lowercased status. -/
def update_availability_tool (_env : Option String)
    (api : ApiCall → Except String Unit) (availability_id : Int)
    (status : String) : ToolResult :=
  if pyLower status ∉ valid_statuses then
    { texts := ["❌ Invalid status. Must be one of: " ++
        String.intercalate ", " valid_statuses],
      calls := [] }
  else
    let call := ApiCall.patch s!"/availabilities/{availability_id}"
      [("status", pyLower status)]
    match api call with
    | Except.ok _ =>
        { texts := [s!"✅ Successfully updated availability {availability_id}\nNew status: {status}\n"],
          calls := [call] }
    | Except.error e =>
        { texts := [s!"❌ Error updating availability: {e}"], calls := [call] }

/-- `server.py`, tool `delete_event`: representative of the gated write tools
(create/update/delete of events, members, assignments, locations), which all
begin with the same `check_readonly` block and short-circuit on its answer
before touching the client. -/
def delete_event_tool (env : Option String) (api : ApiCall → Except String Unit)
    (event_id : Int) : ToolResult :=
  match check_readonly env with
  | some msg => { texts := msg, calls := [] }
  | none =>
    let call := ApiCall.del s!"/events/{event_id}"
    match api call with
    | Except.ok _ =>
        { texts := [s!"✅ Successfully deleted event {event_id}"], calls := [call] }
    | Except.error e =>
        { texts := [s!"❌ Error deleting event: {e}"], calls := [call] }

/-- The gated write tools do short-circuit: with read-only mode on,
`delete_event` returns only the advisory text and records no API call. -/
theorem delete_event_tool_readonly (env : Option String)
    (api : ApiCall → Except String Unit) (event_id : Int)
    (h : is_readonly env = true) :
    delete_event_tool env api event_id =
      { texts := [readonlyAdvisory], calls := [] } := by
  simp [delete_event_tool, check_readonly, h]

/-- C1: the claimed gating fails for `update_availability`.  With
`TEAMSNAP_READONLY=true` (read-only mode on), invoking the tool with a valid
status still issues the client's PATCH network call and returns the success
text instead of the fixed advisory message. -/
theorem update_availability_ignores_readonly :
    is_readonly (some "true") = true ∧
    update_availability_tool (some "true") (fun _ => Except.ok ()) 1 "yes" =
      { texts := ["✅ Successfully updated availability 1\nNew status: yes\n"],
        calls := [ApiCall.patch "/availabilities/1" [("status", "yes")]] } := by
  exact ⟨rfl, rfl⟩

/-- C2 counterexample: the status string `"YES"` lies outside
`{"yes","no","maybe","unknown"}`, yet `update_availability` lowercases it,
accepts it, and issues the PATCH call. -/
theorem update_availability_uppercase_status_cex :
    "YES" ∉ valid_statuses ∧
    (update_availability_tool (some "false") (fun _ => Except.ok ()) 1 "YES").calls =
      [ApiCall.patch "/availabilities/1" [("status", "yes")]] := by
  exact ⟨by decide, rfl⟩

/-- C2 (amended): for every input status string whose *lowercased* form is
outside `{"yes","no","maybe","unknown"}`, `update_availability` returns the
invalid-status error text and performs no API call. -/
theorem update_availability_invalid_status (env : Option String)
    (api : ApiCall → Except String Unit) (availability_id : Int)
    (status : String) (h : pyLower status ∉ valid_statuses) :
    update_availability_tool env api availability_id status =
      { texts := ["❌ Invalid status. Must be one of: yes, no, maybe, unknown"],
        calls := [] } := by
  unfold update_availability_tool
  rw [if_pos h]
  rfl

/-- Witness for `update_availability_invalid_status` at the concrete status
`"perhaps"`. -/
theorem update_availability_invalid_status_witness :
    update_availability_tool (some "false") (fun _ => Except.ok ()) 1 "perhaps" =
      { texts := ["❌ Invalid status. Must be one of: yes, no, maybe, unknown"],
        calls := [] } :=
  update_availability_invalid_status (some "false") (fun _ => Except.ok ()) 1
    "perhaps" (by decide)

/-- C10: when `TEAMSNAP_READONLY` is unset, `is_readonly` returns `true`
(read-only is the default), and any value whose lowercased form is outside
`{"true","1","yes","on"}` disables read-only mode. -/
theorem is_readonly_default_and_disable :
    is_readonly none = true ∧
    ∀ s : String, pyLower s ∉ ["true", "1", "yes", "on"] →
      is_readonly (some s) = false := by
  refine ⟨rfl, ?_⟩
  intro s hs
  simp [is_readonly, hs]

/-- Witness for `is_readonly_default_and_disable`: unset gives read-only;
the concrete value `"false"` disables it. -/
theorem is_readonly_default_and_disable_witness :
    is_readonly none = true ∧ is_readonly (some "false") = false :=
  ⟨is_readonly_default_and_disable.1,
   is_readonly_default_and_disable.2 "false" (by decide)⟩

/-! ### OAuth authentication (teamsnap_auth.py)

The `[teamsnap]` token fields of the persisted `config.ini` are modelled as
`AuthConfig` (`config['teamsnap'].get(k)` returns `none` when `k` is
missing).  `datetime.fromisoformat` is abstracted as a `parse` parameter
(`none` when it raises), `datetime.isoformat` as an `iso` parameter, and
`datetime.now()` as an integer `now`. -/

structure AuthConfig where
  access_token : Option String
  refresh_token : Option String
  token_expires_at : Option String
deriving DecidableEq

/-- `teamsnap_auth.py`, `TeamSnapAuth.is_token_valid`: `False` when the token
is missing or empty; `True` when no (or an empty) expiry is recorded; else
parse the expiry and compare with the current time, treating a parse failure
(`except: return True`) as valid. -/
def is_token_valid (parse : String → Option Int) (now : Int)
    (cfg : AuthConfig) : Bool :=
  match cfg.access_token with
  | none => false
  | some token =>
    if token = "" then false
    else
      match cfg.token_expires_at with
      | none => true
      | some expires_at_str =>
        if expires_at_str = "" then true
        else
          match parse expires_at_str with
          | some expires_at => decide (now < expires_at)
          | none => true

/-- C5: for a stored credential with a non-empty access token, the validity
check returns `false` when the recorded expiry parses to a time earlier than
now, `true` when it parses to a time later than now, and `true` when no
expiry is recorded. -/
theorem is_token_valid_spec (parse : String → Option Int) (now : Int)
    (cfg : AuthConfig) (token : String)
    (htok : cfg.access_token = some token) (hne : token ≠ "") :
    ((∃ s e, cfg.token_expires_at = some s ∧ s ≠ "" ∧ parse s = some e ∧
        e < now) → is_token_valid parse now cfg = false) ∧
    ((∃ s e, cfg.token_expires_at = some s ∧ s ≠ "" ∧ parse s = some e ∧
        now < e) → is_token_valid parse now cfg = true) ∧
    (cfg.token_expires_at = none → is_token_valid parse now cfg = true) := by
  refine ⟨?_, ?_, ?_⟩
  · rintro ⟨s, e, hs, hse, hp, hlt⟩
    simp [is_token_valid, htok, hne, hs, hse, hp, not_lt.mpr hlt.le]
  · rintro ⟨s, e, hs, hse, hp, hlt⟩
    simp [is_token_valid, htok, hne, hs, hse, hp, hlt]
  · intro hnone
    simp [is_token_valid, htok, hne, hnone]

/-- Witness for `is_token_valid_spec`: with `now = 5`, an expiry parsing to
`3` is invalid, one parsing to `10` is valid, and a missing expiry is
valid. -/
theorem is_token_valid_spec_witness :
    is_token_valid
      (fun s => if s = "past" then some 3 else
        if s = "future" then some 10 else none) 5
      ⟨some "tok", none, some "past"⟩ = false ∧
    is_token_valid
      (fun s => if s = "past" then some 3 else
        if s = "future" then some 10 else none) 5
      ⟨some "tok", none, some "future"⟩ = true ∧
    is_token_valid
      (fun s => if s = "past" then some 3 else
        if s = "future" then some 10 else none) 5
      ⟨some "tok", none, none⟩ = true :=
  ⟨(is_token_valid_spec _ 5 ⟨some "tok", none, some "past"⟩ "tok" rfl
      (by decide)).1 ⟨"past", 3, rfl, by decide, rfl, by decide⟩,
   (is_token_valid_spec _ 5 ⟨some "tok", none, some "future"⟩ "tok" rfl
      (by decide)).2.1 ⟨"future", 10, rfl, by decide, rfl, by decide⟩,
   (is_token_valid_spec _ 5 ⟨some "tok", none, none⟩ "tok" rfl
      (by decide)).2.2 rfl⟩

/-- C9: for a stored credential with a non-empty access token and an expiry
string the ISO parser rejects, the validity check returns `true` (the
bare `except:` silently treats a malformed expiry as valid). -/
theorem is_token_valid_unparseable_expiry (parse : String → Option Int)
    (now : Int) (cfg : AuthConfig) (token s : String)
    (htok : cfg.access_token = some token) (hne : token ≠ "")
    (hs : cfg.token_expires_at = some s) (hp : parse s = none) :
    is_token_valid parse now cfg = true := by
  by_cases hse : s = ""
  · simp [is_token_valid, htok, hne, hs, hse]
  · simp [is_token_valid, htok, hne, hs, hse, hp]

/-- Witness for `is_token_valid_unparseable_expiry`: a parser rejecting
everything still reports the credential valid. -/
theorem is_token_valid_unparseable_expiry_witness :
    is_token_valid (fun _ => none) 0
      ⟨some "tok", none, some "not-a-date"⟩ = true :=
  is_token_valid_unparseable_expiry (fun _ => none) 0
    ⟨some "tok", none, some "not-a-date"⟩ "tok" "not-a-date" rfl
    (by decide) rfl rfl

/-- Python's `str.strip()`: whitespace removed from both ends.  Used on the
authorization code typed by the user. -/
def pyStrip (s : String) : String :=
  ⟨(((s.data.dropWhile Char.isWhitespace).reverse.dropWhile
      Char.isWhitespace).reverse)⟩

/-- The HTTP response of the token endpoint together with the fields
`exchange_code_for_token` reads from its JSON body
(`token_data.get("access_token")` etc.; `none` when absent). -/
structure TokenResponse where
  status_code : Int
  text : String
  access_token : Option String
  refresh_token : Option String
  expires_in : Option Int
deriving DecidableEq

inductive AuthError where
  | tokenExchangeFailed (status : Int) (body : String)
  | noAuthorizationCode
deriving DecidableEq

/-- Outcome of an authentication step together with the config as persisted
after the step. -/
structure ExchangeResult where
  outcome : Except AuthError TokenResponse
  config : AuthConfig

/-- `teamsnap_auth.py`, `exchange_code_for_token`: raise on a non-200 token
endpoint status (carrying the status and body) *before* any config mutation;
otherwise write `access_token` and `refresh_token` (defaulting to `""`) and
`token_expires_at = now + expires_in` (default 7200 s) to the config file. -/
def exchange_code_for_token (iso : Int → String) (now : Int)
    (cfg : AuthConfig) (resp : TokenResponse) : ExchangeResult :=
  if resp.status_code ≠ 200 then
    { outcome := Except.error
        (AuthError.tokenExchangeFailed resp.status_code resp.text),
      config := cfg }
  else
    let expires_in := resp.expires_in.getD 7200
    { outcome := Except.ok resp,
      config := { access_token := some (resp.access_token.getD ""),
                  refresh_token := some (resp.refresh_token.getD ""),
                  token_expires_at := some (iso (now + expires_in)) } }

/-- `teamsnap_auth.py`, `authenticate`: strip the entered authorization code,
raise `noAuthorizationCode` when it is empty (before any exchange), else
exchange the code for tokens.  (On success the Python function then returns
`token_data['access_token']`.) -/
def authenticate (iso : Int → String) (now : Int) (cfg : AuthConfig)
    (code : String) (resp : TokenResponse) : ExchangeResult :=
  if pyStrip code = "" then
    { outcome := Except.error AuthError.noAuthorizationCode, config := cfg }
  else
    exchange_code_for_token iso now cfg resp

/-- C8: the authenticator errors on a non-200 token-endpoint response
(surfacing status and body) and on a missing authorization code, and in both
failure cases the persisted credential is left unchanged — tokens are written
only after a successful exchange. -/
theorem auth_failure_preserves_config (iso : Int → String) (now : Int)
    (cfg : AuthConfig) (code : String) (resp : TokenResponse) :
    (resp.status_code ≠ 200 →
      (exchange_code_for_token iso now cfg resp).outcome =
        Except.error
          (AuthError.tokenExchangeFailed resp.status_code resp.text) ∧
      (exchange_code_for_token iso now cfg resp).config = cfg) ∧
    (pyStrip code = "" →
      (authenticate iso now cfg code resp).outcome =
        Except.error AuthError.noAuthorizationCode ∧
      (authenticate iso now cfg code resp).config = cfg) := by
  constructor
  · intro h
    simp [exchange_code_for_token, h]
  · intro h
    simp [authenticate, h]

/-- Witness for `auth_failure_preserves_config`: a 401 exchange and a
whitespace-only code both leave the stored credential untouched. -/
theorem auth_failure_preserves_config_witness :
    (exchange_code_for_token (fun _ => "") 0 ⟨some "a", some "b", some "c"⟩
        ⟨401, "unauthorized", none, none, none⟩).config =
      ⟨some "a", some "b", some "c"⟩ ∧
    (authenticate (fun _ => "") 0 ⟨some "a", some "b", some "c"⟩ "  "
        ⟨200, "", some "t", none, none⟩).config =
      ⟨some "a", some "b", some "c"⟩ :=
  ⟨((auth_failure_preserves_config (fun _ => "") 0 ⟨some "a", some "b", some "c"⟩
      "  " ⟨401, "unauthorized", none, none, none⟩).1 (by decide)).2,
   ((auth_failure_preserves_config (fun _ => "") 0 ⟨some "a", some "b", some "c"⟩
      "  " ⟨200, "", some "t", none, none⟩).2 (by decide)).2⟩

/-! ### API monitoring (monitor_api.py)

`get_current_api_state` reads the root response's `collection` object;
`compare_states` diffs two saved states.  Python's set comprehensions over
link relations are modelled as `Finset (Option String)` (a link without a
`rel` contributes `none`, as `link.get("rel")` does). -/

structure RawLink where
  rel : Option String
  href : Option String
  deprecated : Option Bool
deriving DecidableEq

structure RawQuery where
  rel : Option String
  href : Option String
deriving DecidableEq

structure RawCommand where
  rel : Option String
  href : Option String
  method : Option String
deriving DecidableEq

/-- The fields of the root response's `collection` object that
`get_current_api_state` reads. -/
structure RootCollection where
  version : Option String
  links : List RawLink
  queries : List RawQuery
  commands : List RawCommand
deriving DecidableEq

structure LinkEntry where
  rel : Option String
  href : Option String
  deprecated : Bool
deriving DecidableEq

structure QueryEntry where
  rel : Option String
  href : Option String
deriving DecidableEq

structure CommandEntry where
  rel : Option String
  href : Option String
  method : Option String
deriving DecidableEq

/-- The state dictionary built by `get_current_api_state`. -/
structure ApiState where
  timestamp : String
  version : Option String
  links : List LinkEntry
  queries : List QueryEntry
  commands : List CommandEntry
  deprecated_count : Nat
  deprecated_endpoints : List LinkEntry
  total_links : Nat
  total_queries : Nat
  total_commands : Nat
deriving DecidableEq

/-- `monitor_api.py`, `get_current_api_state`: build the endpoint lists
(`link.get("deprecated", False)` defaults the flag), collect the deprecated
links, and record the counts.  `timestamp` stands for
`datetime.now().isoformat()`. -/
def get_current_api_state (timestamp : String) (root : RootCollection) :
    ApiState :=
  let links := root.links.map fun l =>
    LinkEntry.mk l.rel l.href (l.deprecated.getD false)
  let queries := root.queries.map fun q => QueryEntry.mk q.rel q.href
  let commands := root.commands.map fun c =>
    CommandEntry.mk c.rel c.href c.method
  let deprecated_endpoints := links.filter fun l => l.deprecated
  { timestamp := timestamp
    version := root.version
    links := links
    queries := queries
    commands := commands
    deprecated_count := deprecated_endpoints.length
    deprecated_endpoints := deprecated_endpoints
    total_links := links.length
    total_queries := queries.length
    total_commands := commands.length }

/-- The changes dictionary produced by `compare_states`.  The Python code
materialises the three set differences with `list(...)` in unspecified
order; they are modelled as the finite sets themselves. -/
structure ApiChanges where
  version_changed : Bool
  old_version : Option String
  new_version : Option String
  new_endpoints : Finset (Option String)
  removed_endpoints : Finset (Option String)
  new_deprecations : Finset (Option String)
  deprecated_count_changed : Bool
deriving DecidableEq

/-- The set `{link["rel"] for link in links}`. -/
def relSet (links : List LinkEntry) : Finset (Option String) :=
  (links.map LinkEntry.rel).toFinset

/-- `monitor_api.py`, `compare_states`. -/
def compare_states (old_state new_state : ApiState) : ApiChanges :=
  let old_rels := relSet old_state.links
  let new_rels := relSet new_state.links
  let old_deprecated := relSet old_state.deprecated_endpoints
  let new_deprecated := relSet new_state.deprecated_endpoints
  { version_changed := decide (old_state.version ≠ new_state.version)
    old_version := old_state.version
    new_version := new_state.version
    new_endpoints := new_rels \ old_rels
    removed_endpoints := old_rels \ new_rels
    new_deprecations := new_deprecated \ old_deprecated
    deprecated_count_changed :=
      decide (old_state.deprecated_count ≠ new_state.deprecated_count) }

/-- C6: diffing is symmetric-complementary — the endpoints reported new when
diffing `old` against `new` are exactly those reported removed when diffing
`new` against `old`, as sets of link relation names. -/
theorem compare_states_new_removed_symm (old_state new_state : ApiState) :
    (compare_states old_state new_state).new_endpoints =
      (compare_states new_state old_state).removed_endpoints := rfl

/-- Root response of scenario snapshot A:
links `[{rel:"teams"}, {rel:"events", deprecated:true}]`. -/
def scenarioRootA : RootCollection :=
  ⟨some "3.0",
   [⟨some "teams", some "/teams", none⟩,
    ⟨some "events", some "/events", some true⟩], [], []⟩

/-- Root response of scenario snapshot B:
links `[{rel:"teams"}, {rel:"members"}]`, none deprecated. -/
def scenarioRootB : RootCollection :=
  ⟨some "3.0",
   [⟨some "teams", some "/teams", none⟩,
    ⟨some "members", some "/members", none⟩], [], []⟩

/-- C7: diffing snapshot A (with `events` deprecated) against snapshot B
(where `events` is gone and `members` is new) yields
`new_endpoints = {members}`, `removed_endpoints = {events}`, and an empty
`new_deprecations` — the removed deprecated relation simply disappears from
deprecation tracking. -/
theorem compare_states_scenario :
    (compare_states (get_current_api_state "t0" scenarioRootA)
        (get_current_api_state "t1" scenarioRootB)).new_endpoints =
      {some "members"} ∧
    (compare_states (get_current_api_state "t0" scenarioRootA)
        (get_current_api_state "t1" scenarioRootB)).removed_endpoints =
      {some "events"} ∧
    (compare_states (get_current_api_state "t0" scenarioRootA)
        (get_current_api_state "t1" scenarioRootB)).new_deprecations =
      (∅ : Finset (Option String)) := by
  refine ⟨?_, ?_, ?_⟩ <;> decide

end TeamSnap
